import Mathlib

/-!
# Verification of the MVP voting/leaderboard dashboard (`app.py`)

Shallow embedding of the data model and operations of the conference-floor
voting dashboard: a hierarchical document store holding `tools`, `sections`,
`votes` and `comments`, with vote-counter increments, comment threads,
leaderboard projection, CSV seeding, and the suggest-tool workflow.

The store is modelled as association lists keyed by id strings, mirroring the
Firebase paths `/tools/{toolId}`, `/sections/{sectionId}`,
`/votes/{toolId}/{voterId}` and `/comments/{toolId}/{commentId}`.  Python dict
assignment is modelled by `dictSet` (replace-in-place when the key exists,
append otherwise), and Firebase `update({key: True})` on a `tool_ids` node by
`addToolId` (insert if absent).

A central fact about the source: `render_tool_row` is defined twice in
`app.py`.  The first definition (lines 305-330) checks
`/votes/{toolId}/{voterId}` before enabling the buttons and writes a `Vote`
record after incrementing; the second definition (lines 570-596) shadows the
first one at module level, performs no vote-ledger check and writes no `Vote`
record.  All tab code calls `render_tool_row` after line 570, hence only the
second definition is live.  `render_tool_row_click` below embeds the live
click handler; the shadowed, ledger-aware handler is embedded separately as
`render_tool_row_shadowed_click` where a claim needs it.
-/

namespace MVP

/-- Direction of a vote: the 👍 / 👎 buttons of `render_tool_row`. -/
inductive Direction where
  | up : Direction
  | down : Direction
deriving DecidableEq, Repr

/-- `Tool` record stored at `/tools/{toolId}` (see `create_tool_entry` and
`seed_defaults_from_excel`). -/
structure Tool where
  name : String
  tags : List String
  sections : List String
  upvotes : Int
  downvotes : Int
  created_at : String
deriving DecidableEq, Repr

/-- `Section` record stored at `/sections/{sectionId}`: a display name and the
set of member tool ids (`tool_ids`, modelled as a duplicate-free list in
insertion order). -/
structure SectionRec where
  name : String
  tool_ids : List String
deriving DecidableEq, Repr

/-- `Vote` record stored at `/votes/{toolId}/{voterId}` by the first (shadowed)
`render_tool_row`: `{"type": direction, "timestamp": ...}`. -/
structure Vote where
  type : String
  timestamp : String
deriving DecidableEq, Repr

/-- `Comment` record stored at `/comments/{toolId}/{commentId}` by
`add_comment`: `{"text": ..., "type": ..., "timestamp": ...}`. -/
structure Comment where
  text : String
  type : String
  timestamp : String
deriving DecidableEq, Repr

/-- The hierarchical document store, restricted to the four collections the
core operations touch.  Association lists keep the iteration order of the
fetched Python dicts. -/
structure DB where
  tools : List (String × Tool)
  sections : List (String × SectionRec)
  votes : List ((String × String) × Vote)
  comments : List ((String × String) × Comment)
deriving DecidableEq, Repr

/-- Python dict assignment `d[k] = v`: replaces the value in place when the
key is present (keeping its position, as Python dicts do), appends otherwise. -/
def dictSet {α : Type} (l : List (String × α)) (k : String) (v : α) : List (String × α) :=
  if l.any (fun p => p.1 == k) then l.map (fun p => if p.1 == k then (k, v) else p)
  else l ++ [(k, v)]

/-- Python `str.strip()`: the string with leading and trailing whitespace
removed.  (Defined on the character list so that it evaluates by kernel
reduction; Lean's own `String.trim` is byte-position recursion and does not.) -/
def pyStrip (s : String) : String :=
  String.mk (((s.data.dropWhile Char.isWhitespace).reverse.dropWhile Char.isWhitespace).reverse)

/-- Python `str.lower()`: every character lowercased. -/
def pyLower (s : String) : String :=
  String.mk (s.data.map Char.toLower)

/-- Firebase `.update({tid: True})` on a section's `tool_ids` node: records the
id if it is not already present. -/
def addToolId (ids : List String) (tid : String) : List String :=
  if ids.contains tid then ids else ids ++ [tid]

/-- The transaction function passed to `ref.transaction` inside
`increment_counter_atomic` (app.py lines 121-124): a missing value is
initialised to `delta`, an existing value is replaced by `value + delta`. -/
def transaction_func (delta : Int) (current : Option Int) : Int :=
  match current with
  | none => delta
  | some v => v + delta

/-- `increment_counter_atomic(path, delta)` (app.py lines 119-125), modelled on
a generic numeric path store: the database runs `transaction_func` atomically
on the current value at `path` and stores the result there. -/
def increment_counter_atomic (store : String → Option Int) (path : String) (delta : Int) :
    String → Option Int :=
  fun p => if p = path then some (transaction_func delta (store p)) else store p

/-- `compute_score` (app.py lines 270-271): `upvotes - downvotes`. -/
def compute_score (t : Tool) : Int := t.upvotes - t.downvotes

/-- Update the tool stored at key `tid` (a write to a child path of
`/tools/{tid}`); other entries are untouched. -/
def updateTool (tools : List (String × Tool)) (tid : String) (f : Tool → Tool) :
    List (String × Tool) :=
  tools.map (fun p => (p.1, if p.1 = tid then f p.2 else p.2))

/-- Click handler of the LIVE `render_tool_row` (app.py lines 590-596, the
second definition, which shadows the first): a 👍 click runs
`increment_counter_atomic("/tools/{id}/upvotes", 1)` and a 👎 click runs
`increment_counter_atomic("/tools/{id}/downvotes", 1)`.  No vote-ledger check
is made and no `Vote` record is written; the voter id is not consulted. -/
def render_tool_row_click (db : DB) (tool_id : String) (_voter_id : String)
    (dir : Direction) : DB :=
  match dir with
  | .up =>
      let newTools := updateTool db.tools tool_id
        (fun t => { t with upvotes := transaction_func 1 (some t.upvotes) })
      { db with tools := newTools }
  | .down =>
      let newTools := updateTool db.tools tool_id
        (fun t => { t with downvotes := transaction_func 1 (some t.downvotes) })
      { db with tools := newTools }

/-- Result of one pass through the vote row of the SHADOWED first
`render_tool_row` (app.py lines 305-330). -/
inductive ShadowedVoteResult where
  | disabled : ShadowedVoteResult
  | cast : ShadowedVoteResult
deriving DecidableEq, Repr

/-- One pass through the vote row of the SHADOWED first `render_tool_row`
(app.py lines 318-330): read `/votes/{toolId}/{voterId}`; when a record is
present the buttons are rendered disabled and nothing happens; otherwise a
click increments the counter and then writes the `Vote` record
`{"type": dir, "timestamp": ts}`. -/
def render_tool_row_shadowed_click (db : DB) (tool_id voter_id : String)
    (dir : Direction) (ts : String) : DB × ShadowedVoteResult :=
  match db.votes.lookup (tool_id, voter_id) with
  | some _ => (db, .disabled)
  | none =>
      let db1 := render_tool_row_click db tool_id voter_id dir
      let dirName := match dir with | .up => "up" | .down => "down"
      ({ db1 with votes := db1.votes ++ [((tool_id, voter_id), ⟨dirName, ts⟩)] }, .cast)

/-- A sequence of clicks through the live voting path, applied left to right:
each element is `(toolId, voterId, direction)`. -/
def cast_votes (db : DB) (ops : List (String × String × Direction)) : DB :=
  ops.foldl (fun d o => render_tool_row_click d o.1 o.2.1 o.2.2) db

/-- `add_comment(tool_id, text, comment_type)` (app.py lines 144-151): writes
`{"text": text, "type": comment_type, "timestamp": ts}` to
`/comments/{tool_id}/{comment_id}`; the fresh uuid `comment_id` and the
timestamp are passed explicitly here. -/
def add_comment (db : DB) (tool_id text comment_type comment_id ts : String) : DB :=
  { db with comments := db.comments ++ [((tool_id, comment_id), ⟨text, comment_type, ts⟩)] }

/-- `fetch_comments(tool_id)` (app.py lines 154-155): the dict stored under
`/comments/{tool_id}`, as a `(commentId, Comment)` list. -/
def fetch_comments (db : DB) (tool_id : String) : List (String × Comment) :=
  (db.comments.filter (fun p => p.1.1 == tool_id)).map (fun p => (p.1.2, p.2))

/-- Comparator used by `sorted(comments.items(), key=lambda x: x[1]["timestamp"],
reverse=True)`: `a` may come before `b` when `b`'s timestamp is ≤ `a`'s.
Python's `sorted` is a stable descending sort under `reverse=True`. -/
def commentLE (a b : String × Comment) : Bool :=
  b.2.timestamp ≤ a.2.timestamp

/-- The comment listing rendered at app.py lines 341 and 820: the tool's
comments sorted newest-first by timestamp (stable). -/
def list_comments (db : DB) (tool_id : String) : List (String × Comment) :=
  (fetch_comments db tool_id).mergeSort commentLE

/-- Outcome of the comment submit handler. -/
inductive SubmitResult where
  | added : SubmitResult
  | emptyWarning : SubmitResult
deriving DecidableEq, Repr

/-- The comment submit handler (app.py lines 362-368 and 841-847): when
`text.strip()` is non-empty the stripped text is stored via `add_comment`,
otherwise the input is rejected with a warning (the spec's `EmptyComment`)
and nothing is written. -/
def submit_comment (db : DB) (tool_id text comment_type comment_id ts : String) :
    DB × SubmitResult :=
  if pyStrip text ≠ "" then
    (add_comment db tool_id (pyStrip text) comment_type comment_id ts, .added)
  else
    (db, .emptyWarning)

/-- Record `tid` in `tool_ids` of section `sec_id` (Firebase
`root.child("sections").child(sec_id).child("tool_ids").update({tid: True})`,
issued both by `create_tool_entry` and by the seeding loop). -/
def addToolToSection (sections : List (String × SectionRec)) (sec_id tid : String) :
    List (String × SectionRec) :=
  sections.map (fun p =>
    (p.1, if p.1 = sec_id then { p.2 with tool_ids := addToolId p.2.tool_ids tid } else p.2))

/-- `create_tool_entry(name, tags, section_ids)` (app.py lines 127-141): stores
a fresh tool with zeroed counters at `/tools/{new_id}` and records `new_id` in
`tool_ids` of every chosen section. -/
def create_tool_entry (db : DB) (new_id name : String) (tags section_ids : List String)
    (ts : String) : DB :=
  let tool : Tool := ⟨name, tags, section_ids, 0, 0, ts⟩
  let newSections := section_ids.foldl (fun secs s => addToolToSection secs s new_id) db.sections
  { db with tools := dictSet db.tools new_id tool, sections := newSections }

/-- Outcome of the Suggest Tool form submit handler. -/
inductive SuggestResult where
  | emptyName : SuggestResult
  | duplicateName : SuggestResult
  | noSections : SuggestResult
  | created : String → SuggestResult
deriving DecidableEq, Repr

/-- `existing_tool_names` (app.py line 708): names of all tools currently in
the store. -/
def existing_tool_names (tools_dict : List (String × Tool)) : List String :=
  tools_dict.map (fun p => p.2.name)

/-- The Suggest Tool form submit handler (app.py lines 732-749): strip the
name; an empty name is rejected; a name whose lowercase form matches an
existing tool name (case-insensitive) is rejected (the spec's
`DuplicateName`); an empty section choice is rejected; otherwise the tool is
created via `create_tool_entry` with tags derived from the chosen sections. -/
def suggest_form_submit (db : DB) (tool_name : String) (selected_sections : List String)
    (new_id ts : String) : DB × SuggestResult :=
  let name_stripped := pyStrip tool_name
  if name_stripped = "" then
    (db, .emptyName)
  else if ((existing_tool_names db.tools).map pyLower).contains
      (pyLower name_stripped) then
    (db, .duplicateName)
  else if selected_sections = [] then
    (db, .noSections)
  else
    let tags := selected_sections.map
      (fun sid => ((db.sections.lookup sid).map SectionRec.name).getD sid)
    (create_tool_entry db new_id name_stripped tags selected_sections ts, .created new_id)

/-- One row of the dataframe built by `tools_df_from_db` (app.py lines
280-289): id, name, joined tags, joined section names, both counters, the
derived score and the creation timestamp. -/
structure ToolRow where
  tool_id : String
  name : String
  tags : String
  sections : String
  upvotes : Int
  downvotes : Int
  score : Int
  created_at : String
deriving DecidableEq, Repr

/-- Build one dataframe row from a stored tool (app.py lines 275-289).  When a
sections dict is supplied, section ids are replaced by their display names
(`sections_dict.get(sid, {}).get("name", sid)`); otherwise the raw ids are
joined, as in the `sections_dict=None` call from the Tag Explorer. -/
def row_of (sections_dict : Option (List (String × SectionRec))) (tid : String)
    (t : Tool) : ToolRow :=
  let section_names :=
    match sections_dict with
    | some sd => t.sections.map (fun sid => ((sd.lookup sid).map SectionRec.name).getD sid)
    | none => t.sections
  { tool_id := tid
    name := t.name
    tags := String.intercalate ", " t.tags
    sections := String.intercalate ", " section_names
    upvotes := t.upvotes
    downvotes := t.downvotes
    score := compute_score t
    created_at := t.created_at }

/-- The sort key of `df.sort_values(["score", "upvotes"], ascending=[False,
False])`: `a` may come before `b` when `a`'s score is higher, or scores tie
and `a`'s upvotes are at least `b`'s.  Pandas sorts on multiple columns with
numpy's `lexsort`, which is a stable sort, so the whole projection is modelled
as a stable merge sort under this comparator. -/
def rowLE (a b : ToolRow) : Bool :=
  decide (b.score < a.score ∨ (a.score = b.score ∧ b.upvotes ≤ a.upvotes))

/-- `tools_df_from_db(tools_dict, sections_dict)` (app.py lines 273-293), the
`computeLeaderboard` projection of the spec: one row per tool in dict
iteration order, then a stable sort by score descending and upvotes
descending.  (The `df.empty` guard is invisible here: sorting the empty list
is the empty list.) -/
def tools_df_from_db (tools_dict : List (String × Tool))
    (sections_dict : Option (List (String × SectionRec))) : List ToolRow :=
  let rows := tools_dict.map (fun p => row_of sections_dict p.1 p.2)
  rows.mergeSort rowLE

/-- `SECTION_MAPPING` (app.py lines 63-71), in source order. -/
def SECTION_MAPPING : List (String × String) :=
  [("Segmentation", "section1"),
   ("Clustering", "section2"),
   ("Visualization", "section3"),
   ("Integration", "section4"),
   ("Domain_detection", "section5"),
   ("Upscaling", "section6"),
   ("Annotation", "section7")]

/-- `DEFAULT_SECTIONS` (app.py line 72): one empty section per mapping entry,
keyed by section id, named by its column name. -/
def DEFAULT_SECTIONS : List (String × SectionRec) :=
  SECTION_MAPPING.map (fun p => (p.2, ⟨p.1, []⟩))

/-- `INITIAL_VOTES` (app.py lines 161-221): seed-time initial upvote counts by
tool name. -/
def INITIAL_VOTES : List (String × Int) :=
  [("ADEPT", 6), ("banksy", 127), ("BASS", 30), ("BayesSpace", 160),
   ("Baysor", 1), ("Bento", 84), ("BoReMi", 4), ("CellAgentChat", 33),
   ("Cellcharter", 11), ("Cellpose", 1976), ("CellProfiler", 1066),
   ("CellSymphony", 0), ("COMMOT", 125), ("DeepST", 86), ("DR.SC", 6),
   ("Giotto", 17), ("GPSA", 32), ("GraphST", 138), ("GROVER", 1),
   ("HEIST", 0), ("InSituPy", 28), ("iSCALE", 39), ("KBC", 1),
   ("LeGO-3D", 0), ("LIANA", 224), ("LLOT", 0), ("MagNet", 11),
   ("MISTy", 71), ("MOFA", 361), ("MOSAIK", 3), ("MuSpAn", 17),
   ("Niche-DE", 23), ("Nicheformer", 123), ("PASTE", 96), ("PASTE2", 41),
   ("PersiST", 16), ("PHD-MS", 1), ("PRECAST", 12), ("scGPT", 114),
   ("scVI", 1503), ("Segger", 10), ("SemST", 4), ("SPAC", 9),
   ("SPACEL", 60), ("SpaGCN", 0), ("SPIRAL", 16), ("SpOOx", 10),
   ("ST-Align", 91), ("STAGATE", 138), ("STAligner", 47), ("stardist", 1130),
   ("stLearn", 0), ("STtools", 12), ("Tangram", 337), ("TensionMap", 8),
   ("Thor", 24), ("TopoVelo", 13), ("VoxelEmbed", 0), ("Cell2Spatial", 2)]

/-- One row of the seed CSV: the `Tool name` cell plus the boolean section
columns (absent columns read as 0 via `row.get(col, 0)`). -/
structure Row where
  toolName : String
  flags : List (String × Nat)
deriving DecidableEq, Repr

/-- `row.get(col, 0)` on a seed CSV row. -/
def Row.get (r : Row) (col : String) : Nat :=
  (r.flags.lookup col).getD 0

/-- `[SECTION_MAPPING[col] for col in SECTION_MAPPING if row.get(col, 0) == 1]`
(app.py line 242). -/
def row_section_ids (r : Row) : List String :=
  (SECTION_MAPPING.filter (fun p => r.get p.1 == 1)).map (fun p => p.2)

/-- `DEFAULT_SECTIONS[sid]["name"]` (app.py line 245); every `sid` fed to it
comes from `SECTION_MAPPING`, so the fallback is never reached. -/
def section_name_of (sid : String) : String :=
  ((DEFAULT_SECTIONS.lookup sid).map SectionRec.name).getD sid

/-- Loop state of the seeding loop: the `tools_obj` dict being accumulated,
the current sections store, and how many uuids have been drawn so far. -/
structure SeedState where
  tools_obj : List (String × Tool)
  sections : List (String × SectionRec)
  idx : Nat
deriving DecidableEq, Repr

/-- One iteration of the seeding loop (app.py lines 240-262): strip the name,
collect the flagged section ids, skip the row when none is set; otherwise
derive tags from the section names, draw a fresh uuid, look up the initial
upvote count, store the tool in `tools_obj` and record its id in each chosen
section. -/
def seed_row (ids : Nat → String) (ts : String) (st : SeedState) (r : Row) : SeedState :=
  let tool_name := pyStrip r.toolName
  let section_ids := row_section_ids r
  if section_ids = [] then st
  else
    let tags := section_ids.map section_name_of
    let tid := ids st.idx
    let upvotes := (INITIAL_VOTES.lookup tool_name).getD 0
    let tool : Tool := ⟨tool_name, tags, section_ids, upvotes, 0, ts⟩
    { tools_obj := dictSet st.tools_obj tid tool
      sections := section_ids.foldl (fun secs sid => addToolToSection secs sid tid) st.sections
      idx := st.idx + 1 }

/-- `seed_defaults_from_excel` (app.py lines 224-264): seed `DEFAULT_SECTIONS`
when the sections node is empty; return unchanged when tools already exist;
otherwise run the seeding loop over the CSV rows and set `/tools` to the
accumulated `tools_obj`.  The uuid supply and the timestamp are passed
explicitly. -/
def seed_defaults_from_excel (db : DB) (rows : List Row) (ids : Nat → String)
    (ts : String) : DB :=
  let db1 := if db.sections = [] then { db with sections := DEFAULT_SECTIONS } else db
  if db1.tools ≠ [] then db1
  else
    let final := rows.foldl (seed_row ids ts) ⟨[], db1.sections, 0⟩
    { db1 with tools := final.tools_obj, sections := final.sections }

/-- Number of up-clicks on tool `tid` in a click sequence. -/
def upCountN (ops : List (String × String × Direction)) (tid : String) : Nat :=
  (ops.filter (fun o => decide (o.1 = tid ∧ o.2.2 = Direction.up))).length

/-- Number of down-clicks on tool `tid` in a click sequence. -/
def downCountN (ops : List (String × String × Direction)) (tid : String) : Nat :=
  (ops.filter (fun o => decide (o.1 = tid ∧ o.2.2 = Direction.down))).length

/-! ## Concrete store used for witnesses and counterexamples -/

/-- A tool with zeroed counters, as freshly created. -/
def tool0 : Tool := ⟨"Alpha", ["Clustering"], ["section2"], 0, 0, "2025-01-01T00:00:00"⟩

/-- A store holding the single tool `tool0` under id `"t1"`, no votes, no
comments. -/
def db0 : DB := ⟨[("t1", tool0)], DEFAULT_SECTIONS, [], []⟩

/-- The counter selected by a vote direction. -/
def counterOf (dir : Direction) (t : Tool) : Int :=
  match dir with
  | .up => t.upvotes
  | .down => t.downvotes

/-- Count of `up` Vote records for tool `tid` in the vote ledger. -/
def ledger_up_count (db : DB) (tid : String) : Int :=
  ((db.votes.filter (fun p => decide (p.1.1 = tid ∧ p.2.type = "up"))).length : Int)

/-- Count of `down` Vote records for tool `tid` in the vote ledger. -/
def ledger_down_count (db : DB) (tid : String) : Int :=
  ((db.votes.filter (fun p => decide (p.1.1 = tid ∧ p.2.type = "down"))).length : Int)

/-- One seed CSV row for Cellpose, flagged only for the Clustering section. -/
def cellposeRow : Row := ⟨"Cellpose", [("Clustering", 1)]⟩

/-- The store obtained by seeding an empty database from the single-row CSV
`[cellposeRow]`, with uuids `0, 1, 2, ...`. -/
def dbSeeded : DB :=
  seed_defaults_from_excel ⟨[], [], [], []⟩ [cellposeRow] (fun n => toString n)
    "2025-01-01T00:00:00"

/-- The tool the seeding writes for `cellposeRow`: `INITIAL_VOTES` gives it
1976 upvotes at seed time. -/
def cellposeTool : Tool :=
  ⟨"Cellpose", ["Clustering"], ["section2"], 1976, 0, "2025-01-01T00:00:00"⟩

/-- A tool tied with `toolB` on `(score, upvotes)`. -/
def toolA : Tool := ⟨"A", [], [], 2, 1, "t1"⟩

/-- A tool tied with `toolA` on `(score, upvotes)`. -/
def toolB : Tool := ⟨"B", [], [], 2, 1, "t2"⟩

/-- A store with two comments on tool `"t1"`, timestamps strictly increasing. -/
def dbC : DB :=
  ⟨[], [], [],
   [(("t1", "c1"), ⟨"hello", "pro", "2025-01-01T10:00"⟩),
    (("t1", "c2"), ⟨"later", "con", "2025-01-01T11:00"⟩)]⟩

/-- A store already holding a tool named `"Cellpose"`. -/
def dbD : DB :=
  ⟨[("id1", ⟨"Cellpose", ["Clustering"], ["section2"], 10, 2, "t0"⟩)],
   DEFAULT_SECTIONS, [], []⟩

/-! ## Lemmas about the store primitives -/

theorem lookup_updateTool (tools : List (String × Tool)) (tid : String) (f : Tool → Tool)
    (k : String) :
    (updateTool tools tid f).lookup k =
      (tools.lookup k).map (fun t => if k = tid then f t else t) := by
  induction tools with
  | nil => rfl
  | cons p rest ih =>
    obtain ⟨a, t⟩ := p
    by_cases h : k = a
    · subst h
      simp [updateTool, List.lookup_cons]
    · have hb : (k == a) = false := by simpa using h
      simpa [updateTool, List.lookup_cons, hb] using ih

theorem cast_votes_tools_lookup (ops : List (String × String × Direction)) (db : DB)
    (tid : String) (t : Tool) (ht : db.tools.lookup tid = some t) :
    (cast_votes db ops).tools.lookup tid =
      some { t with upvotes := t.upvotes + (upCountN ops tid : Int),
                    downvotes := t.downvotes + (downCountN ops tid : Int) } := by
  induction ops generalizing db t with
  | nil =>
    simpa [cast_votes, upCountN, downCountN] using ht
  | cons o rest ih =>
    obtain ⟨tid1, v, dir⟩ := o
    have hstep : cast_votes db ((tid1, v, dir) :: rest) =
        cast_votes (render_tool_row_click db tid1 v dir) rest := rfl
    rw [hstep]
    by_cases htid : tid = tid1
    · subst htid
      cases dir with
      | up =>
        have hl : (render_tool_row_click db tid v .up).tools.lookup tid =
            some { t with upvotes := t.upvotes + 1 } := by
          simp [render_tool_row_click, lookup_updateTool, ht, transaction_func]
        rw [ih _ _ hl]
        simp [upCountN, downCountN, List.filter_cons, Tool.mk.injEq]
        omega
      | down =>
        have hl : (render_tool_row_click db tid v .down).tools.lookup tid =
            some { t with downvotes := t.downvotes + 1 } := by
          simp [render_tool_row_click, lookup_updateTool, ht, transaction_func]
        rw [ih _ _ hl]
        simp [upCountN, downCountN, List.filter_cons, Tool.mk.injEq]
        omega
    · have hl : (render_tool_row_click db tid1 v dir).tools.lookup tid = some t := by
        cases dir <;> simp [render_tool_row_click, lookup_updateTool, ht, htid]
      rw [ih _ _ hl]
      have : (decide (tid1 = tid ∧ dir = Direction.up)) = false := by
        simp_all [eq_comm]
      simp [upCountN, downCountN, List.filter_cons, Ne.symm htid]

theorem cast_votes_votes_eq (ops : List (String × String × Direction)) (db : DB) :
    (cast_votes db ops).votes = db.votes := by
  induction ops generalizing db with
  | nil => rfl
  | cons o rest ih =>
    obtain ⟨tid1, v, dir⟩ := o
    have hstep : cast_votes db ((tid1, v, dir) :: rest) =
        cast_votes (render_tool_row_click db tid1 v dir) rest := rfl
    rw [hstep, ih]
    cases dir <;> rfl

/-! ## C10 -/

/-- C10: `increment_counter_atomic` applied to a path whose current value is
absent initialises the counter to exactly `delta` rather than failing, and
applied to an existing integer value replaces it with that value plus
`delta`. -/
theorem increment_counter_atomic_spec (store : String → Option Int) (path : String)
    (delta v : Int) :
    (store path = none →
      increment_counter_atomic store path delta path = some delta) ∧
    (store path = some v →
      increment_counter_atomic store path delta path = some (v + delta)) := by
  constructor <;> intro h <;> simp [increment_counter_atomic, transaction_func, h]

/-- Witness for C10: on a store with `/a` absent and `/b` holding 3,
incrementing by 5 initialises `/a` to 5 and bumps `/b` to 8. -/
theorem increment_counter_atomic_spec_witness :
    increment_counter_atomic (fun p => if p = "b" then some 3 else none) "a" 5 "a" = some 5 ∧
    increment_counter_atomic (fun p => if p = "b" then some 3 else none) "b" 5 "b" = some 8 :=
  ⟨(increment_counter_atomic_spec (fun p => if p = "b" then some 3 else none) "a" 5 0).1 rfl,
   (increment_counter_atomic_spec (fun p => if p = "b" then some 3 else none) "b" 5 3).2 rfl⟩

/-! ## C4 -/

/-- C4: for `N` castVote calls with distinct voter ids on the same tool and
the same direction, the resulting counter equals the starting value plus
exactly `N`, whatever the order of the calls.  Each click is one atomic
database transaction, so any interleaving of the `N` concurrent calls
serialises into some sequence of the `N` clicks; `voters` ranges over every
such sequence. -/
theorem cast_votes_distinct_no_lost_updates (db : DB) (tid : String) (t : Tool)
    (voters : List String) (dir : Direction)
    (hnd : voters.Nodup) (ht : db.tools.lookup tid = some t) :
    ((cast_votes db (voters.map (fun v => (tid, v, dir)))).tools.lookup tid).map
        (counterOf dir) = some (counterOf dir t + voters.length) := by
  rw [cast_votes_tools_lookup _ db tid t ht]
  cases dir <;>
    simp [counterOf, upCountN, downCountN, List.filter_map, Function.comp_def]

/-- Witness for C4: three distinct voters up-vote `"t1"` in `db0`; the upvote
counter lands on 0 + 3. -/
theorem cast_votes_distinct_no_lost_updates_witness :
    ((cast_votes db0 (["v1", "v2", "v3"].map (fun v => ("t1", v, Direction.up)))).tools.lookup
        "t1").map (counterOf Direction.up) = some (counterOf Direction.up tool0 + 3) :=
  cast_votes_distinct_no_lost_updates db0 "t1" tool0 ["v1", "v2", "v3"] Direction.up
    (by decide) (by decide)

/-! ## C1 -/

/-- Counterexample for C1: in `db0` (tool `"t1"` with 0 upvotes, no votes
recorded), the same `(toolId, voterId) = ("t1", "v1")` casts an up vote twice
through the live voting path.  After the first call the counter is 1; the
second call is not rejected and moves it to 2, and no `AlreadyVoted`
mechanism exists: the vote ledger stays empty, so nothing distinguishes the
second call from the first. -/
theorem cast_vote_duplicate_not_rejected_cex :
    ((cast_votes db0 [("t1", "v1", Direction.up)]).tools.lookup "t1").map Tool.upvotes =
      some 1 ∧
    ((cast_votes db0 [("t1", "v1", Direction.up), ("t1", "v1", Direction.up)]).tools.lookup
        "t1").map Tool.upvotes = some 2 ∧
    (2 : Int) ≠ 1 ∧
    (cast_votes db0 [("t1", "v1", Direction.up), ("t1", "v1", Direction.up)]).votes = [] := by
  refine ⟨by decide, by decide, by decide, by decide⟩

/-- C1 amended: through the live voting path (the second `render_tool_row`
definition, which shadows the ledger-aware first one), in ANY sequence of
castVote calls with the same `(toolId, voterId)` — each call choosing its own
direction, e.g. the spec's up-then-down duplicate — every call succeeds and
increments the counter it chose by exactly 1: afterwards the upvote counter
sits at the starting value plus the number of up calls and the downvote
counter at the starting value plus the number of down calls, and no call
writes or consults a Vote record — the ledger is unchanged, so duplicates are
never rejected, with or without the presentation-layer check. -/
theorem cast_vote_duplicate_all_increment (db : DB) (tid voter : String) (t : Tool)
    (dirs : List Direction) (ht : db.tools.lookup tid = some t) :
    (cast_votes db (dirs.map (fun d => (tid, voter, d)))).tools.lookup tid =
      some { t with
        upvotes := t.upvotes +
          ((dirs.filter (fun d => decide (d = Direction.up))).length : Int),
        downvotes := t.downvotes +
          ((dirs.filter (fun d => decide (d = Direction.down))).length : Int) } ∧
    (cast_votes db (dirs.map (fun d => (tid, voter, d)))).votes = db.votes := by
  refine ⟨?_, cast_votes_votes_eq _ _⟩
  have hup : upCountN (dirs.map (fun d => (tid, voter, d))) tid =
      (dirs.filter (fun d => decide (d = Direction.up))).length := by
    simp [upCountN, List.filter_map, Function.comp_def]
  have hdown : downCountN (dirs.map (fun d => (tid, voter, d))) tid =
      (dirs.filter (fun d => decide (d = Direction.down))).length := by
    simp [downCountN, List.filter_map, Function.comp_def]
  rw [cast_votes_tools_lookup _ db tid t ht, hup, hdown]

/-- Witness for C1's amended statement: voter `"v1"` casts up, then down, then
up again on `"t1"` in `db0`; all three duplicate calls succeed, leaving
upvotes at 0 + 2 and downvotes at 0 + 1, with the ledger untouched. -/
theorem cast_vote_duplicate_all_increment_witness :
    (cast_votes db0 ([Direction.up, Direction.down, Direction.up].map
        (fun d => ("t1", "v1", d)))).tools.lookup "t1" =
      some { tool0 with
        upvotes := tool0.upvotes +
          ((([Direction.up, Direction.down, Direction.up].filter
            (fun d => decide (d = Direction.up))).length : Int)),
        downvotes := tool0.downvotes +
          ((([Direction.up, Direction.down, Direction.up].filter
            (fun d => decide (d = Direction.down))).length : Int)) } ∧
    (cast_votes db0 ([Direction.up, Direction.down, Direction.up].map
        (fun d => ("t1", "v1", d)))).votes = db0.votes :=
  cast_vote_duplicate_all_increment db0 "t1" "v1" tool0
    [Direction.up, Direction.down, Direction.up] (by decide)

/-! ## C2 -/

/-- C2 evaluated at the failing input: voter `"v1"` casts a successful up vote
on `"t1"` in `db0` through the live voting path.  Contrary to the claim, no
Vote record appears at `/votes/t1/v1`, and a second castVote with the same
pair does not fail with `AlreadyVoted` — it succeeds and increments the
counter to 2.  (The shadowed first `render_tool_row` would have written the
record: its embedding `render_tool_row_shadowed_click` does, confirming the
claim describes the shadowed code's intent.) -/
theorem cast_vote_writes_no_vote_record_cex :
    (cast_votes db0 [("t1", "v1", Direction.up)]).votes.lookup ("t1", "v1") = none ∧
    ((cast_votes db0 [("t1", "v1", Direction.up), ("t1", "v1", Direction.up)]).tools.lookup
        "t1").map Tool.upvotes = some 2 ∧
    ((render_tool_row_shadowed_click db0 "t1" "v1" Direction.up "ts").1.votes.lookup
        ("t1", "v1")) = some ⟨"up", "ts"⟩ := by
  refine ⟨by decide, by decide, by decide⟩

/-! ## C3 -/

/-- Counterexample for C3: directly after seeding, the tool seeded from
`cellposeRow` has stored score 1976 (its `INITIAL_VOTES` baseline) while the
vote ledger holds no Vote record at all, so the stored score does not equal
the count of up Votes minus the count of down Votes (which is 0). -/
theorem score_ledger_invariant_cex :
    (dbSeeded.tools.lookup "0").map compute_score = some 1976 ∧
    ledger_up_count dbSeeded "0" - ledger_down_count dbSeeded "0" = 0 ∧
    (1976 : Int) ≠ 0 := by
  refine ⟨by decide, by decide, by decide⟩

/-- C3 amended: the stored score is the seed-time baseline plus the clicked
votes, not the ledger difference — for every tool and every sequence of
clicks through the live voting path, the stored score moves by exactly
(up-clicks − down-clicks) from its starting value, while the vote ledger is
left completely unchanged (the live path writes no Vote records), so the
stored score equals its seed-time value plus all clicked votes rather than
the up-minus-down count of Vote records. -/
theorem score_drift_from_clicks (db : DB) (ops : List (String × String × Direction))
    (tid : String) (t : Tool) (ht : db.tools.lookup tid = some t) :
    ((cast_votes db ops).tools.lookup tid).map compute_score =
      some (compute_score t + (upCountN ops tid : Int) - (downCountN ops tid : Int)) ∧
    (cast_votes db ops).votes = db.votes := by
  refine ⟨?_, cast_votes_votes_eq _ _⟩
  rw [cast_votes_tools_lookup _ db tid t ht]
  simp [compute_score]
  ring

/-- Witness for C3's amended statement: in the seeded store, one up-click and
one down-click by two voters move Cellpose's score from 1976 to 1976 + 1 − 1
while the ledger stays empty. -/
theorem score_drift_from_clicks_witness :
    ((cast_votes dbSeeded [("0", "v1", Direction.up), ("0", "v2", Direction.down)]).tools.lookup
        "0").map compute_score =
      some (compute_score cellposeTool +
        (upCountN [("0", "v1", Direction.up), ("0", "v2", Direction.down)] "0" : Int) -
        (downCountN [("0", "v1", Direction.up), ("0", "v2", Direction.down)] "0" : Int)) ∧
    (cast_votes dbSeeded [("0", "v1", Direction.up), ("0", "v2", Direction.down)]).votes =
      dbSeeded.votes :=
  score_drift_from_clicks dbSeeded [("0", "v1", Direction.up), ("0", "v2", Direction.down)]
    "0" cellposeTool (by decide)

/-! ## C5 -/

theorem rowLE_trans (a b c : ToolRow) : rowLE a b → rowLE b c → rowLE a c := by
  simp only [rowLE, decide_eq_true_eq]
  intro h1 h2
  omega

theorem rowLE_total (a b : ToolRow) : rowLE a b || rowLE b a := by
  simp only [rowLE, Bool.or_eq_true, decide_eq_true_eq]
  omega

/-- C5: `tools_df_from_db` returns exactly the input rows (a permutation of
the row list built in dict iteration order), ordered primarily by score
descending and secondarily by upvotes descending; the sort is stable — any
two rows with equal `(score, upvotes)` keep their relative input order — and
repeated calls on unchanged input give the same order. -/
theorem tools_df_from_db_sorted_stable (tools_dict : List (String × Tool))
    (sections_dict : Option (List (String × SectionRec))) :
    (tools_df_from_db tools_dict sections_dict).Perm
        (tools_dict.map (fun p => row_of sections_dict p.1 p.2)) ∧
    (tools_df_from_db tools_dict sections_dict).Pairwise
        (fun a b => b.score < a.score ∨ (a.score = b.score ∧ b.upvotes ≤ a.upvotes)) ∧
    (∀ a b : ToolRow, a.score = b.score → a.upvotes = b.upvotes →
      List.Sublist [a, b] (tools_dict.map (fun p => row_of sections_dict p.1 p.2)) →
      List.Sublist [a, b] (tools_df_from_db tools_dict sections_dict)) ∧
    tools_df_from_db tools_dict sections_dict = tools_df_from_db tools_dict sections_dict := by
  refine ⟨List.mergeSort_perm _ _, ?_, ?_, rfl⟩
  · have h := List.sorted_mergeSort rowLE_trans rowLE_total
      (tools_dict.map (fun p => row_of sections_dict p.1 p.2))
    exact h.imp (fun hab => by simpa [rowLE, decide_eq_true_eq] using hab)
  · intro a b hs hu hsub
    exact List.pair_sublist_mergeSort rowLE_trans rowLE_total
      (by simp only [rowLE, decide_eq_true_eq]; omega) hsub

/-- Witness for C5: with two tools tied on `(score, upvotes)`, their input
order survives into the output of `tools_df_from_db`. -/
theorem tools_df_from_db_sorted_stable_witness :
    List.Sublist [row_of none "a" toolA, row_of none "b" toolB]
      (tools_df_from_db [("a", toolA), ("b", toolB)] none) :=
  (tools_df_from_db_sorted_stable [("a", toolA), ("b", toolB)] none).2.2.1
    (row_of none "a" toolA) (row_of none "b" toolB) (by decide) (by decide)
    (List.Sublist.refl _)

/-! ## C7 -/

theorem commentLE_trans (a b c : String × Comment) :
    commentLE a b → commentLE b c → commentLE a c := by
  simp only [commentLE, decide_eq_true_eq]
  exact fun h1 h2 => le_trans h2 h1

theorem commentLE_total (a b : String × Comment) : commentLE a b || commentLE b a := by
  simp only [commentLE, Bool.or_eq_true, decide_eq_true_eq]
  exact le_total b.2.timestamp a.2.timestamp

/-- C7: the rendered comment list is exactly the tool's comments (a
permutation of `fetch_comments`), ordered newest-first by timestamp —
non-strictly in general, strictly whenever the timestamps are pairwise
distinct — and after `add_comment` of a comment whose timestamp is strictly
the latest, re-listing places that comment first. -/
theorem list_comments_newest_first (db : DB) (tool_id : String)
    (text comment_type comment_id ts : String) :
    (list_comments db tool_id).Perm (fetch_comments db tool_id) ∧
    (list_comments db tool_id).Pairwise
      (fun a b => b.2.timestamp ≤ a.2.timestamp) ∧
    ((fetch_comments db tool_id).Pairwise
        (fun a b => a.2.timestamp ≠ b.2.timestamp) →
      (list_comments db tool_id).Pairwise
        (fun a b => b.2.timestamp < a.2.timestamp)) ∧
    ((∀ c ∈ fetch_comments db tool_id, c.2.timestamp < ts) →
      (list_comments (add_comment db tool_id text comment_type comment_id ts)
          tool_id).head? = some (comment_id, ⟨text, comment_type, ts⟩)) := by
  have hsorted : ∀ d : DB,
      (list_comments d tool_id).Pairwise (fun a b => b.2.timestamp ≤ a.2.timestamp) := by
    intro d
    have h := List.sorted_mergeSort commentLE_trans commentLE_total
      (fetch_comments d tool_id)
    exact h.imp (fun hab => by simpa [commentLE, decide_eq_true_eq] using hab)
  refine ⟨List.mergeSort_perm _ _, hsorted db, ?_, ?_⟩
  · intro hne
    have hperm : (list_comments db tool_id).Perm (fetch_comments db tool_id) :=
      List.mergeSort_perm _ _
    have hne2 : (list_comments db tool_id).Pairwise
        (fun a b => a.2.timestamp ≠ b.2.timestamp) :=
      List.Pairwise.perm hne hperm.symm (fun {x y} h => Ne.symm h)
    exact ((hsorted db).and hne2).imp
      (fun hab => lt_of_le_of_ne hab.1 (Ne.symm hab.2))
  · intro hlt
    have hfetch : fetch_comments (add_comment db tool_id text comment_type comment_id ts)
        tool_id =
        fetch_comments db tool_id ++ [(comment_id, ⟨text, comment_type, ts⟩)] := by
      simp [fetch_comments, add_comment, List.filter_append]
    have hmem : (comment_id, (⟨text, comment_type, ts⟩ : Comment)) ∈
        list_comments (add_comment db tool_id text comment_type comment_id ts) tool_id := by
      rw [list_comments, List.mem_mergeSort, hfetch]
      exact List.mem_append_right _ (List.mem_singleton.mpr rfl)
    have hsortedA := hsorted (add_comment db tool_id text comment_type comment_id ts)
    cases hout : list_comments (add_comment db tool_id text comment_type comment_id ts)
        tool_id with
    | nil => rw [hout] at hmem; cases hmem
    | cons hd tl =>
      rw [hout] at hmem hsortedA
      simp only [List.head?_cons, Option.some.injEq]
      by_cases heq : hd = (comment_id, (⟨text, comment_type, ts⟩ : Comment))
      · exact heq
      · exfalso
        have hintl : (comment_id, (⟨text, comment_type, ts⟩ : Comment)) ∈ tl := by
          rcases List.mem_cons.mp hmem with h | h
          · exact absurd h.symm heq
          · exact h
        have hts : ts ≤ hd.2.timestamp := by
          have := (List.pairwise_cons.mp hsortedA).1 _ hintl
          simpa using this
        have hhd : hd ∈ fetch_comments
            (add_comment db tool_id text comment_type comment_id ts) tool_id := by
          have hmem2 : hd ∈ list_comments
              (add_comment db tool_id text comment_type comment_id ts) tool_id := by
            rw [hout]; exact List.mem_cons_self _ _
          rw [list_comments, List.mem_mergeSort] at hmem2
          exact hmem2
        rw [hfetch] at hhd
        rcases List.mem_append.mp hhd with hin | hnew
        · exact absurd hts (not_le.mpr (hlt hd hin))
        · exact heq (List.mem_singleton.mp hnew)

/-- Witness for C7: in `dbC` the listing is strictly newest-first, and adding
a comment with the latest timestamp puts it at the head of the re-listing. -/
theorem list_comments_newest_first_witness :
    (list_comments dbC "t1").Pairwise (fun a b => b.2.timestamp < a.2.timestamp) ∧
    (list_comments (add_comment dbC "t1" "newest" "neutral" "c3" "2025-01-01T12:00")
        "t1").head? = some ("c3", ⟨"newest", "neutral", "2025-01-01T12:00"⟩) :=
  ⟨(list_comments_newest_first dbC "t1" "newest" "neutral" "c3" "2025-01-01T12:00").2.2.1
      (by decide),
   (list_comments_newest_first dbC "t1" "newest" "neutral" "c3" "2025-01-01T12:00").2.2.2
      (by
        intro c hc
        have hlist : fetch_comments dbC "t1" =
            [("c1", ⟨"hello", "pro", "2025-01-01T10:00"⟩),
             ("c2", ⟨"later", "con", "2025-01-01T11:00"⟩)] := by decide
        rw [hlist] at hc
        rcases List.mem_cons.mp hc with h | h
        · subst h; rw [String.lt_iff_toList_lt]; decide
        · rcases List.mem_cons.mp h with h2 | h2
          · subst h2; rw [String.lt_iff_toList_lt]; decide
          · cases h2)⟩

/-! ## C8 -/

/-- C8: a comment submission whose text is empty after trimming whitespace is
rejected (the `EmptyComment` warning branch) and no Comment record is
created; a submission whose text is non-empty after trimming stores exactly
the trimmed comment. -/
theorem submit_comment_spec (db : DB) (tool_id text comment_type comment_id ts : String) :
    (pyStrip text = "" →
      submit_comment db tool_id text comment_type comment_id ts = (db, .emptyWarning)) ∧
    (pyStrip text ≠ "" →
      submit_comment db tool_id text comment_type comment_id ts =
        (add_comment db tool_id (pyStrip text) comment_type comment_id ts, .added) ∧
      (add_comment db tool_id (pyStrip text) comment_type comment_id ts).comments =
        db.comments ++ [((tool_id, comment_id), ⟨pyStrip text, comment_type, ts⟩)]) := by
  constructor
  · intro h
    simp [submit_comment, h]
  · intro h
    exact ⟨by simp [submit_comment, h], by simp [add_comment]⟩

/-- Witness for C8: a whitespace-only submission leaves `dbC` untouched with
the warning; `" hi "` is stored as `"hi"`. -/
theorem submit_comment_spec_witness :
    submit_comment dbC "t1" "   " "pro" "c9" "ts9" = (dbC, .emptyWarning) ∧
    submit_comment dbC "t1" " hi " "pro" "c9" "ts9" =
      (add_comment dbC "t1" (pyStrip " hi ") "pro" "c9" "ts9", .added) ∧
    (add_comment dbC "t1" (pyStrip " hi ") "pro" "c9" "ts9").comments =
      dbC.comments ++ [(("t1", "c9"), ⟨pyStrip " hi ", "pro", "ts9"⟩)] :=
  ⟨(submit_comment_spec dbC "t1" "   " "pro" "c9" "ts9").1 (by decide),
   (submit_comment_spec dbC "t1" " hi " "pro" "c9" "ts9").2 (by decide)⟩

/-! ## C9 -/

/-- C9: submitting the Suggest Tool form with a name whose lowercase form
matches an existing tool's name is rejected at the duplicate-name check, and
the store is returned unchanged — no new Tool record is created. -/
theorem suggest_duplicate_name_rejected (db : DB) (tool_name : String)
    (selected_sections : List String) (new_id ts : String)
    (hne : pyStrip tool_name ≠ "")
    (hdup : (((existing_tool_names db.tools).map pyLower).contains
      (pyLower (pyStrip tool_name))) = true) :
    suggest_form_submit db tool_name selected_sections new_id ts = (db, .duplicateName) := by
  simp only [suggest_form_submit]
  rw [if_neg hne, if_pos hdup]

/-- Witness for C9: proposing `"cellpose"` while `"Cellpose"` exists is
rejected with the duplicate-name error and `dbD` is unchanged. -/
theorem suggest_duplicate_name_rejected_witness :
    suggest_form_submit dbD "cellpose" ["section2"] "newid" "t1" = (dbD, .duplicateName) :=
  suggest_duplicate_name_rejected dbD "cellpose" ["section2"] "newid" "t1"
    (by decide) (by decide)

/-! ## C6 -/

theorem mem_addToolId_self (l : List String) (tid : String) : tid ∈ addToolId l tid := by
  unfold addToolId
  split
  · next h => exact List.elem_iff.mp h
  · exact List.mem_append_right _ (List.mem_singleton.mpr rfl)

theorem mem_addToolId_mono (l : List String) (x y : String) (h : x ∈ l) :
    x ∈ addToolId l y := by
  unfold addToolId
  split
  · exact h
  · exact List.mem_append_left _ h

theorem mem_dictSet_self {α : Type} (l : List (String × α)) (k : String) (v : α) :
    (k, v) ∈ dictSet l k v := by
  unfold dictSet
  split
  · next h =>
    obtain ⟨p, hp, hpk⟩ := List.any_eq_true.mp h
    refine List.mem_map.mpr ⟨p, hp, ?_⟩
    simp [hpk]
  · exact List.mem_append_right _ (List.mem_singleton.mpr rfl)

theorem mem_dictSet_of_ne {α : Type} (l : List (String × α)) (k : String) (v : α)
    (p : String × α) (hp : p ∈ l) (hne : p.1 ≠ k) : p ∈ dictSet l k v := by
  unfold dictSet
  split
  · refine List.mem_map.mpr ⟨p, hp, ?_⟩
    have hb : (p.1 == k) = false := by simpa using hne
    simp [hb]
  · exact List.mem_append_left _ hp

theorem lookup_addToolToSection (secs : List (String × SectionRec)) (sid x k : String) :
    (addToolToSection secs sid x).lookup k =
      (secs.lookup k).map
        (fun s => if k = sid then { s with tool_ids := addToolId s.tool_ids x } else s) := by
  induction secs with
  | nil => rfl
  | cons p rest ih =>
    obtain ⟨a, s⟩ := p
    by_cases h : k = a
    · subst h
      simp [addToolToSection, List.lookup_cons]
    · have hb : (k == a) = false := by simpa using h
      simpa [addToolToSection, List.lookup_cons, hb] using ih

theorem secOK_addToolToSection (secs : List (String × SectionRec)) (sid x tid : String)
    (h : ∃ s, secs.lookup "section2" = some s ∧ tid ∈ s.tool_ids) :
    ∃ s, (addToolToSection secs sid x).lookup "section2" = some s ∧ tid ∈ s.tool_ids := by
  obtain ⟨s, hs, hmem⟩ := h
  rw [lookup_addToolToSection, hs]
  refine ⟨_, rfl, ?_⟩
  dsimp only
  split
  · exact mem_addToolId_mono _ _ _ hmem
  · exact hmem

theorem secOK_foldl_addToolToSection (sids : List String) (secs : List (String × SectionRec))
    (x tid : String)
    (h : ∃ s, secs.lookup "section2" = some s ∧ tid ∈ s.tool_ids) :
    ∃ s, ((sids.foldl (fun acc sid => addToolToSection acc sid x) secs).lookup "section2") =
      some s ∧ tid ∈ s.tool_ids := by
  induction sids generalizing secs with
  | nil => exact h
  | cons a rest ih => exact ih _ (secOK_addToolToSection _ _ _ _ h)

theorem seed_row_secOK (ids : Nat → String) (ts : String) (st : SeedState) (r0 : Row)
    (tid : String)
    (h : ∃ s, st.sections.lookup "section2" = some s ∧ tid ∈ s.tool_ids) :
    ∃ s, (seed_row ids ts st r0).sections.lookup "section2" = some s ∧ tid ∈ s.tool_ids := by
  by_cases h0 : row_section_ids r0 = []
  · simpa [seed_row, h0] using h
  · simpa [seed_row, h0] using
      secOK_foldl_addToolToSection (row_section_ids r0) st.sections (ids st.idx) tid h

theorem seed_fold_secOK (rows : List Row) (ids : Nat → String) (ts : String)
    (st : SeedState) (tid : String)
    (h : ∃ s, st.sections.lookup "section2" = some s ∧ tid ∈ s.tool_ids) :
    ∃ s, ((rows.foldl (seed_row ids ts) st).sections).lookup "section2" = some s ∧
      tid ∈ s.tool_ids := by
  induction rows generalizing st with
  | nil => exact h
  | cons r0 rest ih => exact ih _ (seed_row_secOK ids ts st r0 tid h)

theorem addToolToSection_isSome (secs : List (String × SectionRec)) (sid x k : String)
    (h : (secs.lookup k).isSome) : ((addToolToSection secs sid x).lookup k).isSome := by
  rw [lookup_addToolToSection]
  simpa using h

theorem foldl_addToolToSection_isSome (sids : List String) (secs : List (String × SectionRec))
    (x k : String) (h : (secs.lookup k).isSome) :
    (((sids.foldl (fun acc sid => addToolToSection acc sid x) secs)).lookup k).isSome := by
  induction sids generalizing secs with
  | nil => exact h
  | cons a rest ih => exact ih _ (addToolToSection_isSome _ _ _ _ h)

theorem seed_row_sections_isSome (ids : Nat → String) (ts : String) (st : SeedState)
    (r0 : Row) (k : String) (h : (st.sections.lookup k).isSome) :
    (((seed_row ids ts st r0).sections).lookup k).isSome := by
  by_cases h0 : row_section_ids r0 = []
  · simpa [seed_row, h0] using h
  · simpa [seed_row, h0] using
      foldl_addToolToSection_isSome (row_section_ids r0) st.sections (ids st.idx) k h

theorem seed_fold_sections_isSome (rows : List Row) (ids : Nat → String) (ts : String)
    (st : SeedState) (k : String) (h : (st.sections.lookup k).isSome) :
    (((rows.foldl (seed_row ids ts) st).sections).lookup k).isSome := by
  induction rows generalizing st with
  | nil => exact h
  | cons r0 rest ih => exact ih _ (seed_row_sections_isSome ids ts st r0 k h)

theorem seed_row_idx_le (ids : Nat → String) (ts : String) (st : SeedState) (r0 : Row) :
    st.idx ≤ (seed_row ids ts st r0).idx := by
  by_cases h0 : row_section_ids r0 = []
  · simp [seed_row, h0]
  · simp [seed_row, h0]

theorem seed_fold_tools_mem (rows : List Row) (ids : Nat → String) (ts : String)
    (st : SeedState) (p : String × Tool)
    (hp : p ∈ st.tools_obj) (hfresh : ∀ j, st.idx ≤ j → p.1 ≠ ids j) :
    p ∈ (rows.foldl (seed_row ids ts) st).tools_obj := by
  induction rows generalizing st with
  | nil => exact hp
  | cons r0 rest ih =>
    rw [List.foldl_cons]
    refine ih (seed_row ids ts st r0) ?_ ?_
    · by_cases h0 : row_section_ids r0 = []
      · simpa [seed_row, h0] using hp
      · simpa [seed_row, h0] using
          mem_dictSet_of_ne st.tools_obj (ids st.idx) _ p hp (hfresh st.idx (le_refl _))
    · intro j hj
      exact hfresh j (le_trans (seed_row_idx_le ids ts st r0) hj)

theorem seed_row_clustering (ids : Nat → String) (ts : String) (st : SeedState) (r : Row)
    (hr : row_section_ids r = ["section2"]) :
    seed_row ids ts st r =
      ⟨dictSet st.tools_obj (ids st.idx)
          ⟨pyStrip r.toolName, ["Clustering"], ["section2"],
           (INITIAL_VOTES.lookup (pyStrip r.toolName)).getD 0, 0, ts⟩,
        addToolToSection st.sections "section2" (ids st.idx),
        st.idx + 1⟩ := by
  have hname : section_name_of "section2" = "Clustering" := by decide
  unfold seed_row
  rw [hr]
  simp [hname]

/-- C6: seeding a tabular input that contains a row whose only section flag is
a 1 in the `Clustering` column (mapped to `section2`) produces a Tool whose
`sections` equal `["section2"]` and whose `tags` equal `["Clustering"]`, with
its initial upvotes from `INITIAL_VOTES`, and records that tool's id in
`section2`'s `tool_ids`; and any row with no section flag set is skipped by
the seeding loop (leaves the loop state unchanged). -/
theorem seed_clustering_roundtrip (rows1 rows2 : List Row) (r : Row) (ids : Nat → String)
    (ts : String) (hinj : Function.Injective ids)
    (hr : row_section_ids r = ["section2"]) :
    (∃ tid s,
      (tid, (⟨pyStrip r.toolName, ["Clustering"], ["section2"],
        (INITIAL_VOTES.lookup (pyStrip r.toolName)).getD 0, 0, ts⟩ : Tool)) ∈
        (seed_defaults_from_excel ⟨[], [], [], []⟩ (rows1 ++ r :: rows2) ids ts).tools ∧
      (seed_defaults_from_excel ⟨[], [], [], []⟩ (rows1 ++ r :: rows2) ids ts).sections.lookup
        "section2" = some s ∧ tid ∈ s.tool_ids) ∧
    (∀ (st : SeedState) (r0 : Row), row_section_ids r0 = [] → seed_row ids ts st r0 = st) := by
  constructor
  · have hseed : seed_defaults_from_excel ⟨[], [], [], []⟩ (rows1 ++ r :: rows2) ids ts =
        { tools := ((rows1 ++ r :: rows2).foldl (seed_row ids ts)
            ⟨[], DEFAULT_SECTIONS, 0⟩).tools_obj,
          sections := ((rows1 ++ r :: rows2).foldl (seed_row ids ts)
            ⟨[], DEFAULT_SECTIONS, 0⟩).sections,
          votes := [], comments := [] } := rfl
    rw [hseed]
    have hsplit : (rows1 ++ r :: rows2).foldl (seed_row ids ts) ⟨[], DEFAULT_SECTIONS, 0⟩ =
        rows2.foldl (seed_row ids ts)
          (seed_row ids ts (rows1.foldl (seed_row ids ts) ⟨[], DEFAULT_SECTIONS, 0⟩) r) := by
      rw [List.foldl_append, List.foldl_cons]
    rw [hsplit]
    set st1 := rows1.foldl (seed_row ids ts) ⟨[], DEFAULT_SECTIONS, 0⟩ with hst1
    rw [seed_row_clustering ids ts st1 r hr]
    set tool : Tool := ⟨pyStrip r.toolName, ["Clustering"], ["section2"],
      (INITIAL_VOTES.lookup (pyStrip r.toolName)).getD 0, 0, ts⟩ with htool
    have hmem0 : (ids st1.idx, tool) ∈
        (dictSet st1.tools_obj (ids st1.idx) tool) := mem_dictSet_self _ _ _
    have hfresh : ∀ j, st1.idx + 1 ≤ j → ids st1.idx ≠ ids j := by
      intro j hj heq
      have h := hinj heq
      omega
    have hmem := seed_fold_tools_mem rows2 ids ts
      ⟨dictSet st1.tools_obj (ids st1.idx) tool,
       addToolToSection st1.sections "section2" (ids st1.idx), st1.idx + 1⟩
      (ids st1.idx, tool) hmem0 hfresh
    have hsome : (st1.sections.lookup "section2").isSome := by
      refine seed_fold_sections_isSome rows1 ids ts ⟨[], DEFAULT_SECTIONS, 0⟩ "section2" ?_
      decide
    obtain ⟨s0, hs0⟩ := Option.isSome_iff_exists.mp hsome
    have hsec0 : ∃ s, (addToolToSection st1.sections "section2" (ids st1.idx)).lookup
        "section2" = some s ∧ ids st1.idx ∈ s.tool_ids := by
      rw [lookup_addToolToSection, hs0]
      refine ⟨_, rfl, ?_⟩
      simp [mem_addToolId_self]
    have hsec := seed_fold_secOK rows2 ids ts
      ⟨dictSet st1.tools_obj (ids st1.idx) tool,
       addToolToSection st1.sections "section2" (ids st1.idx), st1.idx + 1⟩
      (ids st1.idx) hsec0
    obtain ⟨s, hs, hmem2⟩ := hsec
    exact ⟨ids st1.idx, s, hmem, hs, hmem2⟩
  · intro st r0 h0
    simp [seed_row, h0]

/-- Witness for C6: seeding an empty store from the single row
`{"Tool name": "X", "Clustering": 1}` with the injective uuid supply
`n ↦ n` copies of `'a'`. -/
theorem seed_clustering_roundtrip_witness :
    (∃ tid s,
      (tid, (⟨pyStrip "X", ["Clustering"], ["section2"],
        (INITIAL_VOTES.lookup (pyStrip "X")).getD 0, 0, "t0"⟩ : Tool)) ∈
        (seed_defaults_from_excel ⟨[], [], [], []⟩ [⟨"X", [("Clustering", 1)]⟩]
          (fun n => String.mk (List.replicate n 'a')) "t0").tools ∧
      (seed_defaults_from_excel ⟨[], [], [], []⟩ [⟨"X", [("Clustering", 1)]⟩]
          (fun n => String.mk (List.replicate n 'a')) "t0").sections.lookup "section2" =
        some s ∧ tid ∈ s.tool_ids) ∧
    (∀ (st : SeedState) (r0 : Row), row_section_ids r0 = [] →
      seed_row (fun n => String.mk (List.replicate n 'a')) "t0" st r0 = st) :=
  seed_clustering_roundtrip [] [] ⟨"X", [("Clustering", 1)]⟩
    (fun n => String.mk (List.replicate n 'a')) "t0"
    (by
      intro m n h
      have h2 := congrArg (fun s => s.data.length) h
      simpa using h2)
    (by decide)

end MVP
